import Mathlib

/-!
Shallow embedding of the affinity-mcp-server source (src/src/index.ts).
The file contains two versions of the server separated by a document
separator: version A (the first block, 5 tools) and version B (the second
block, 19 tools).  Handlers are modelled as functions from their validated
parameters and a remote-API oracle to the list of HTTP requests they issue
together with their result.
-/

/-- Dynamic JSON-ish values, as JavaScript handles them (including the
distinguished `undefined`). -/
inductive JVal where
  | null
  | undefined
  | bool (b : Bool)
  | num (n : Int)
  | str (s : String)
  | arr (xs : List JVal)
  | obj (kvs : List (String × JVal))

/-- Lookup of a key in a JS object's key/value list. -/
def jvLookup (kvs : List (String × JVal)) (k : String) : Option JVal :=
  (kvs.find? (fun kv => kv.1 == k)).map (fun kv => kv.2)

/-- Property access `v[k]`: `undefined` on a missing key or a non-object. -/
def jvGet (v : JVal) (k : String) : JVal :=
  match v with
  | .obj kvs => (jvLookup kvs k).getD .undefined
  | _ => .undefined

/-- Whether a JS object value has the given own key. -/
def jvHasKey (v : JVal) (k : String) : Bool :=
  match v with
  | .obj kvs => (jvLookup kvs k).isSome
  | _ => false

/-- Object rest-destructuring `const \x7b k, ...rest \x7d = v`: the object
without the key `k`. -/
def jvOmit (v : JVal) (k : String) : JVal :=
  match v with
  | .obj kvs => .obj (kvs.filter (fun kv => kv.1 ≠ k))
  | other => other

mutual
/-- JS string conversion as performed by template-literal interpolation. -/
def jsDisplay : JVal → String
  | .null => "null"
  | .undefined => "undefined"
  | .bool true => "true"
  | .bool false => "false"
  | .num n => toString n
  | .str s => s
  | .arr xs => jsDisplayList xs
  | .obj _ => "[object Object]"

/-- Array elements joined with commas, as `Array.prototype.toString` does. -/
def jsDisplayList : List JVal → String
  | [] => ""
  | [x] => jsDisplay x
  | x :: y :: xs => jsDisplay x ++ "," ++ jsDisplayList (y :: xs)
end

mutual
/-- Model of `JSON.stringify(v, null, 2)` used by the search/get/list
handlers to echo remote payloads as pretty-printed text. -/
def jsonStringify (indent : String) : JVal → String
  | .null => "null"
  | .undefined => "undefined"
  | .bool true => "true"
  | .bool false => "false"
  | .num n => toString n
  | .str s => "\"" ++ s ++ "\""
  | .arr [] => "[]"
  | .arr (x :: xs) =>
    "[\n" ++ jsonStringifyItems (indent ++ "  ") (x :: xs) ++ "\n" ++ indent ++ "]"
  | .obj [] => "\x7b\x7d"
  | .obj (kv :: kvs) =>
    "\x7b\n" ++ jsonStringifyFields (indent ++ "  ") (kv :: kvs) ++ "\n" ++ indent ++ "\x7d"

/-- Array items of a stringified JSON document, one per indented line. -/
def jsonStringifyItems (indent : String) : List JVal → String
  | [] => ""
  | [x] => indent ++ jsonStringify indent x
  | x :: y :: xs =>
    indent ++ jsonStringify indent x ++ ",\n" ++ jsonStringifyItems indent (y :: xs)

/-- Object fields of a stringified JSON document, one per indented line. -/
def jsonStringifyFields (indent : String) : List (String × JVal) → String
  | [] => ""
  | [kv] => indent ++ "\"" ++ kv.1 ++ "\": " ++ jsonStringify indent kv.2
  | kv :: kw :: kvs =>
    indent ++ "\"" ++ kv.1 ++ "\": " ++ jsonStringify indent kv.2 ++ ",\n" ++
      jsonStringifyFields indent (kw :: kvs)
end

/-- Field types occurring in the zod schemas of the source: `z.string()`,
`z.number()`, `z.unknown()`, `z.array(...)`, `z.enum([...])`. -/
inductive ZType where
  | zstr
  | znum
  | zunknown
  | zarr (elem : ZType)
  | zenum (options : List String)
deriving DecidableEq

/-- Presence modifier of a schema field: plain (required), `.optional()`,
or `.default(d)`. -/
inductive ZodMod where
  | required
  | optional
  | withDefault (d : JVal)

/-- One declared field of a zod object schema. -/
structure ZField where
  name : String
  ty : ZType
  mod : ZodMod

/-- A zod object schema; every schema in the source is
`z.object(\x7b...\x7d).strict()`, so the shape is always closed. -/
structure Schema where
  fields : List ZField

/-- Structural type check of a value against a zod field type. -/
def typeCheck : ZType → JVal → Bool
  | .zstr, .str _ => true
  | .zstr, _ => false
  | .znum, .num _ => true
  | .znum, _ => false
  | .zunknown, _ => true
  | .zarr t, .arr xs => xs.all (fun v => typeCheck t v)
  | .zarr _, _ => false
  | .zenum opts, .str s => opts.contains s
  | .zenum _, _ => false

/-- Closed-shape check of `.strict()`: every key of the input must be a
declared field. -/
def checkStrict (fields : List ZField) : List (String × JVal) → Except String Unit
  | [] => .ok ()
  | (k, _) :: rest =>
    if fields.any (fun f => f.name == k) then checkStrict fields rest
    else .error ("Unrecognized key: " ++ k)

/-- Field-by-field validation: required fields must be present with the
right type, optional fields may be absent, defaulted fields are filled in. -/
def parseFields : List ZField → List (String × JVal) → Except String (List (String × JVal))
  | [], _ => .ok []
  | f :: fs, kvs =>
    match jvLookup kvs f.name with
    | some v =>
      if typeCheck f.ty v then
        match parseFields fs kvs with
        | .ok rest => .ok ((f.name, v) :: rest)
        | .error e => .error e
      else .error ("Invalid type for field: " ++ f.name)
    | none =>
      match f.mod with
      | .required => .error ("Required field missing: " ++ f.name)
      | .optional => parseFields fs kvs
      | .withDefault d =>
        match parseFields fs kvs with
        | .ok rest => .ok ((f.name, d) :: rest)
        | .error e => .error e

/-- Validation of raw arguments against a zod object schema declared in the
source: the semantics of `Schema.parse` for `z.object(...).strict()`. -/
def zodParse (s : Schema) (raw : JVal) : Except String JVal :=
  match raw with
  | .obj kvs =>
    match checkStrict s.fields kvs with
    | .ok _ => (parseFields s.fields kvs).map JVal.obj
    | .error e => .error e
  | _ => .error "Expected object"

/-- HTTP method of an outbound axios call. -/
inductive Method where
  | get
  | post
  | put
  | delete
deriving DecidableEq

/-- One outbound HTTP request against the remote CRM API: method, path
(with any interpolated identifier already substituted), query parameters
(the axios `params` config, `undefined` when none) and request body (`undefined`
for GET/DELETE). -/
structure Request where
  method : Method
  path : String
  query : JVal
  body : JVal

/-- A remote-API oracle: what the CRM answers to each request.  `.ok data`
models a successful response with body `data` (axios `res.data`); `.error`
models a thrown axios error (non-success status or network failure). -/
abbrev Remote := Request → Except String JVal

/-- One content item of a reply envelope, `\x7b type: "text", text \x7d` in
the source. -/
structure ContentItem where
  type : String
  text : String

/-- The reply envelope returned by every handler. -/
structure Reply where
  content : List ContentItem

/-- The single-text reply every handler builds. -/
def textReply (s : String) : Reply :=
  ⟨[⟨"text", s⟩]⟩

/-- A handler that issues exactly one remote call and on success maps the
response data to a reply text; a remote failure propagates.  Every handler
in the source has this shape. -/
def oneCall (remote : Remote) (req : Request) (mkText : JVal → String) :
    List Request × Except String Reply :=
  match remote req with
  | .ok data => ([req], .ok (textReply (mkText data)))
  | .error e => ([req], .error e)

/-- A registered tool: the arguments of one `server.registerTool` call.  The
`readOnly` and `destructive` flags are the `readOnlyHint` and
`destructiveHint` of the source's `annotations` object. -/
structure ToolReg where
  name : String
  title : String
  description : String
  inputSchema : Schema
  readOnly : Bool
  destructive : Bool
  handler : JVal → Remote → List Request × Except String Reply

/-- Registry lookup: `resolve(name)` returns the descriptor option. -/
def resolve (reg : List ToolReg) (name : String) : Option ToolReg :=
  reg.find? (fun t => t.name == name)

/-- Fault taxonomy of the dispatch layer. -/
inductive Fault where
  | unknownOperation (name : String)
  | invalidArguments (detail : String)
  | remoteCallFailed (detail : String)

/-- Modelled from the spec: the dispatch adapter (provided by the MCP SDK
library, whose code is not under src/) resolves the operation name in the
registry, validates the raw arguments against the declared zod schema, and
only on success invokes the handler; an unknown name or a validation
failure yields a fault with no remote call issued. -/
def dispatch (reg : List ToolReg) (name : String) (raw : JVal) (remote : Remote) :
    List Request × Except Fault Reply :=
  match resolve reg name with
  | none => ([], .error (.unknownOperation name))
  | some t =>
    match zodParse t.inputSchema raw with
    | .error e => ([], .error (.invalidArguments e))
    | .ok p =>
      match t.handler p remote with
      | (trace, .ok r) => (trace, .ok r)
      | (trace, .error e) => (trace, .error (.remoteCallFailed e))

/-- Startup credential guard, identical in both versions of the source: the
process reads `AFFINITY_API_KEY` once; a missing (or, by JS falsiness,
empty) value prints an error and exits with code 1 before the HTTP listener
is ever set up.  Otherwise the listener starts on `PORT` or the default
"3000" (JS `process.env.PORT || "3000"`). -/
inductive StartupOutcome where
  | exitWith (code : Nat)
  | listening (port : String)

/-- JS truthiness of an optional environment string: absent and empty are
both falsy. -/
def envTruthy : Option String → Bool
  | none => false
  | some s => !(s == "")

/-- The bootstrap path of the source: credential guard, then listener. -/
def startup (affinityApiKey : Option String) (portEnv : Option String) : StartupOutcome :=
  if envTruthy affinityApiKey then
    .listening (match portEnv with
      | some s => if s == "" then "3000" else s
      | none => "3000")
  else
    .exitWith 1

namespace VA

/-- Version A `SearchSchema` (index.ts lines 22-26). -/
def SearchSchema : Schema :=
  ⟨[⟨"term", .zstr, .optional⟩,
    ⟨"page_size", .znum, .withDefault (.num 20)⟩,
    ⟨"page_token", .zstr, .optional⟩]⟩

/-- Version A `CreatePersonSchema` (lines 28-33). -/
def CreatePersonSchema : Schema :=
  ⟨[⟨"first_name", .zstr, .required⟩,
    ⟨"last_name", .zstr, .required⟩,
    ⟨"emails", .zarr .zstr, .optional⟩,
    ⟨"organization_ids", .zarr .znum, .optional⟩]⟩

/-- Version A `CreateOrgSchema` (lines 35-39). -/
def CreateOrgSchema : Schema :=
  ⟨[⟨"name", .zstr, .required⟩,
    ⟨"domain", .zstr, .optional⟩,
    ⟨"person_ids", .zarr .znum, .optional⟩]⟩

/-- Version A `CreateNoteSchema` (lines 41-45). -/
def CreateNoteSchema : Schema :=
  ⟨[⟨"parent_id", .znum, .required⟩,
    ⟨"parent_type", .zenum ["person", "organization", "opportunity"], .required⟩,
    ⟨"content", .zstr, .required⟩]⟩

/-- Version A `affinity_search_people` handler (lines 52-55). -/
def searchPeopleHandler (p : JVal) (remote : Remote) : List Request × Except String Reply :=
  oneCall remote ⟨.get, "/persons", p, .undefined⟩ (fun d => jsonStringify "" d)

/-- Version A `affinity_create_person` handler (lines 62-65). -/
def createPersonHandler (p : JVal) (remote : Remote) : List Request × Except String Reply :=
  oneCall remote ⟨.post, "/persons", .undefined, p⟩ (fun d =>
    "Person created: " ++ jsDisplay (jvGet d "first_name") ++ " " ++
      jsDisplay (jvGet d "last_name") ++ " (ID: " ++ jsDisplay (jvGet d "id") ++ ")")

/-- Version A `affinity_search_organizations` handler (lines 72-75). -/
def searchOrganizationsHandler (p : JVal) (remote : Remote) : List Request × Except String Reply :=
  oneCall remote ⟨.get, "/organizations", p, .undefined⟩ (fun d => jsonStringify "" d)

/-- Version A `affinity_create_organization` handler (lines 82-85). -/
def createOrganizationHandler (p : JVal) (remote : Remote) : List Request × Except String Reply :=
  oneCall remote ⟨.post, "/organizations", .undefined, p⟩ (fun d =>
    "Organization created: " ++ jsDisplay (jvGet d "name") ++ " (ID: " ++
      jsDisplay (jvGet d "id") ++ ")")

/-- Version A `affinity_create_note` handler (lines 92-95). -/
def createNoteHandler (p : JVal) (remote : Remote) : List Request × Except String Reply :=
  oneCall remote ⟨.post, "/notes", .undefined, p⟩ (fun d =>
    "Note created successfully (ID: " ++ jsDisplay (jvGet d "id") ++ ")")

/-- Version A registration of `affinity_search_people` (lines 47-55). -/
def searchPeopleTool : ToolReg :=
  ⟨"affinity_search_people", "Search People",
   "Search for people in Affinity CRM by name or email",
   SearchSchema, true, false, searchPeopleHandler⟩

/-- Version A registration of `affinity_create_person` (lines 57-65). -/
def createPersonTool : ToolReg :=
  ⟨"affinity_create_person", "Create Person",
   "Create a new person in Affinity CRM",
   CreatePersonSchema, false, false, createPersonHandler⟩

/-- Version A registration of `affinity_search_organizations` (lines 67-75). -/
def searchOrganizationsTool : ToolReg :=
  ⟨"affinity_search_organizations", "Search Organizations",
   "Search for organizations in Affinity CRM",
   SearchSchema, true, false, searchOrganizationsHandler⟩

/-- Version A registration of `affinity_create_organization` (lines 77-85). -/
def createOrganizationTool : ToolReg :=
  ⟨"affinity_create_organization", "Create Organization",
   "Create a new organization in Affinity CRM",
   CreateOrgSchema, false, false, createOrganizationHandler⟩

/-- Version A registration of `affinity_create_note` (lines 87-95). -/
def createNoteTool : ToolReg :=
  ⟨"affinity_create_note", "Create Note",
   "Add a note to a person, organization, or opportunity",
   CreateNoteSchema, false, false, createNoteHandler⟩

/-- The registry built by version A's five `registerTool` calls, in order. -/
def registry : List ToolReg :=
  [searchPeopleTool, createPersonTool, searchOrganizationsTool,
   createOrganizationTool, createNoteTool]

end VA

namespace VB

/-- Version B `SearchSchema` (index.ts lines 140-144). -/
def SearchSchema : Schema :=
  ⟨[⟨"term", .zstr, .optional⟩,
    ⟨"page_size", .znum, .withDefault (.num 20)⟩,
    ⟨"page_token", .zstr, .optional⟩]⟩

/-- Version B `IDSchema` (lines 146-148). -/
def IDSchema : Schema :=
  ⟨[⟨"id", .znum, .required⟩]⟩

/-- Version B `CreatePersonSchema` (lines 151-156). -/
def CreatePersonSchema : Schema :=
  ⟨[⟨"first_name", .zstr, .required⟩,
    ⟨"last_name", .zstr, .required⟩,
    ⟨"emails", .zarr .zstr, .optional⟩,
    ⟨"organization_ids", .zarr .znum, .optional⟩]⟩

/-- Version B `UpdatePersonSchema` (lines 158-164). -/
def UpdatePersonSchema : Schema :=
  ⟨[⟨"person_id", .znum, .required⟩,
    ⟨"first_name", .zstr, .optional⟩,
    ⟨"last_name", .zstr, .optional⟩,
    ⟨"emails", .zarr .zstr, .optional⟩,
    ⟨"organization_ids", .zarr .znum, .optional⟩]⟩

/-- Version B `CreateOrgSchema` (lines 167-171). -/
def CreateOrgSchema : Schema :=
  ⟨[⟨"name", .zstr, .required⟩,
    ⟨"domain", .zstr, .optional⟩,
    ⟨"person_ids", .zarr .znum, .optional⟩]⟩

/-- Version B `UpdateOrgSchema` (lines 173-178). -/
def UpdateOrgSchema : Schema :=
  ⟨[⟨"organization_id", .znum, .required⟩,
    ⟨"name", .zstr, .optional⟩,
    ⟨"domain", .zstr, .optional⟩,
    ⟨"person_ids", .zarr .znum, .optional⟩]⟩

/-- Version B `SearchOpportunitiesSchema` (lines 181-184). -/
def SearchOpportunitiesSchema : Schema :=
  ⟨[⟨"term", .zstr, .optional⟩,
    ⟨"page_size", .znum, .withDefault (.num 20)⟩]⟩

/-- Version B `CreateOpportunitySchema` (lines 186-190). -/
def CreateOpportunitySchema : Schema :=
  ⟨[⟨"name", .zstr, .required⟩,
    ⟨"person_ids", .zarr .znum, .optional⟩,
    ⟨"organization_ids", .zarr .znum, .optional⟩]⟩

/-- Version B `CreateNoteSchema` (lines 193-197). -/
def CreateNoteSchema : Schema :=
  ⟨[⟨"parent_id", .znum, .required⟩,
    ⟨"parent_type", .zenum ["person", "organization", "opportunity"], .required⟩,
    ⟨"content", .zstr, .required⟩]⟩

/-- Version B `GetNotesSchema` (lines 199-202). -/
def GetNotesSchema : Schema :=
  ⟨[⟨"parent_id", .znum, .required⟩,
    ⟨"parent_type", .zenum ["person", "organization", "opportunity"], .required⟩]⟩

/-- Version B `AddToListSchema` (lines 205-208). -/
def AddToListSchema : Schema :=
  ⟨[⟨"list_id", .znum, .required⟩,
    ⟨"entity_id", .znum, .required⟩]⟩

/-- Version B `RemoveFromListSchema` (lines 210-212). -/
def RemoveFromListSchema : Schema :=
  ⟨[⟨"list_entry_id", .znum, .required⟩]⟩

/-- Version B `GetListEntriesSchema` (lines 214-217). -/
def GetListEntriesSchema : Schema :=
  ⟨[⟨"list_id", .znum, .required⟩,
    ⟨"page_size", .znum, .withDefault (.num 20)⟩]⟩

/-- Version B `UpdateFieldValueSchema` (lines 220-224): only `field_id`,
`entity_id` and `value` — there is no `list_entry_id` field.  `z.unknown()`
accepts `undefined`, so in zod the `value` key may be absent. -/
def UpdateFieldValueSchema : Schema :=
  ⟨[⟨"field_id", .znum, .required⟩,
    ⟨"entity_id", .znum, .required⟩,
    ⟨"value", .zunknown, .optional⟩]⟩

/-- Version B `GetFieldValuesSchema` (lines 226-228). -/
def GetFieldValuesSchema : Schema :=
  ⟨[⟨"entity_id", .znum, .required⟩]⟩

/-- The empty strict schema `z.object(\x7b\x7d).strict()` used inline by
`affinity_list_all_lists` and `affinity_get_all_fields`. -/
def EmptySchema : Schema :=
  ⟨[]⟩

end VB

namespace VB

/-- Version B `affinity_search_people` handler (lines 236-239). -/
def searchPeopleHandler (p : JVal) (remote : Remote) : List Request × Except String Reply :=
  oneCall remote ⟨.get, "/persons", p, .undefined⟩ (fun d => jsonStringify "" d)

/-- Version B `affinity_get_person` handler (lines 246-249). -/
def getPersonHandler (p : JVal) (remote : Remote) : List Request × Except String Reply :=
  oneCall remote ⟨.get, "/persons/" ++ jsDisplay (jvGet p "id"), .undefined, .undefined⟩
    (fun d => jsonStringify "" d)

/-- Version B `affinity_create_person` handler (lines 256-259). -/
def createPersonHandler (p : JVal) (remote : Remote) : List Request × Except String Reply :=
  oneCall remote ⟨.post, "/persons", .undefined, p⟩ (fun d =>
    "Person created: " ++ jsDisplay (jvGet d "first_name") ++ " " ++
      jsDisplay (jvGet d "last_name") ++ " (ID: " ++ jsDisplay (jvGet d "id") ++ ")")

/-- Version B `affinity_update_person` handler (lines 266-270): destructures
`person_id` out of the params and PUTs the rest. -/
def updatePersonHandler (p : JVal) (remote : Remote) : List Request × Except String Reply :=
  oneCall remote
    ⟨.put, "/persons/" ++ jsDisplay (jvGet p "person_id"), .undefined, jvOmit p "person_id"⟩
    (fun d =>
      "Person updated: " ++ jsDisplay (jvGet d "first_name") ++ " " ++
        jsDisplay (jvGet d "last_name"))

/-- Version B `affinity_search_organizations` handler (lines 278-281). -/
def searchOrganizationsHandler (p : JVal) (remote : Remote) : List Request × Except String Reply :=
  oneCall remote ⟨.get, "/organizations", p, .undefined⟩ (fun d => jsonStringify "" d)

/-- Version B `affinity_get_organization` handler (lines 288-291). -/
def getOrganizationHandler (p : JVal) (remote : Remote) : List Request × Except String Reply :=
  oneCall remote ⟨.get, "/organizations/" ++ jsDisplay (jvGet p "id"), .undefined, .undefined⟩
    (fun d => jsonStringify "" d)

/-- Version B `affinity_create_organization` handler (lines 298-301). -/
def createOrganizationHandler (p : JVal) (remote : Remote) : List Request × Except String Reply :=
  oneCall remote ⟨.post, "/organizations", .undefined, p⟩ (fun d =>
    "Organization created: " ++ jsDisplay (jvGet d "name") ++ " (ID: " ++
      jsDisplay (jvGet d "id") ++ ")")

/-- Version B `affinity_update_organization` handler (lines 308-312). -/
def updateOrganizationHandler (p : JVal) (remote : Remote) : List Request × Except String Reply :=
  oneCall remote
    ⟨.put, "/organizations/" ++ jsDisplay (jvGet p "organization_id"), .undefined,
      jvOmit p "organization_id"⟩
    (fun d => "Organization updated: " ++ jsDisplay (jvGet d "name"))

/-- Version B `affinity_search_opportunities` handler (lines 320-323). -/
def searchOpportunitiesHandler (p : JVal) (remote : Remote) : List Request × Except String Reply :=
  oneCall remote ⟨.get, "/opportunities", p, .undefined⟩ (fun d => jsonStringify "" d)

/-- Version B `affinity_create_opportunity` handler (lines 330-333). -/
def createOpportunityHandler (p : JVal) (remote : Remote) : List Request × Except String Reply :=
  oneCall remote ⟨.post, "/opportunities", .undefined, p⟩ (fun d =>
    "Opportunity created: " ++ jsDisplay (jvGet d "name") ++ " (ID: " ++
      jsDisplay (jvGet d "id") ++ ")")

/-- Version B `affinity_create_note` handler (lines 341-344): the validated
params object is posted verbatim as the body. -/
def createNoteHandler (p : JVal) (remote : Remote) : List Request × Except String Reply :=
  oneCall remote ⟨.post, "/notes", .undefined, p⟩ (fun d =>
    "Note created successfully (ID: " ++ jsDisplay (jvGet d "id") ++ ")")

/-- Version B `affinity_get_notes` handler (lines 351-354). -/
def getNotesHandler (p : JVal) (remote : Remote) : List Request × Except String Reply :=
  oneCall remote
    ⟨.get, "/notes",
      .obj [("parent_id", jvGet p "parent_id"), ("parent_type", jvGet p "parent_type")],
      .undefined⟩
    (fun d => jsonStringify "" d)

/-- Version B `affinity_list_all_lists` handler (lines 362-365). -/
def listAllListsHandler (_p : JVal) (remote : Remote) : List Request × Except String Reply :=
  oneCall remote ⟨.get, "/lists", .undefined, .undefined⟩ (fun d => jsonStringify "" d)

/-- Version B `affinity_get_list_entries` handler (lines 372-375). -/
def getListEntriesHandler (p : JVal) (remote : Remote) : List Request × Except String Reply :=
  oneCall remote
    ⟨.get, "/lists/" ++ jsDisplay (jvGet p "list_id") ++ "/list-entries",
      .obj [("page_size", jvGet p "page_size")], .undefined⟩
    (fun d => jsonStringify "" d)

/-- Version B `affinity_add_to_list` handler (lines 382-385). -/
def addToListHandler (p : JVal) (remote : Remote) : List Request × Except String Reply :=
  oneCall remote
    ⟨.post, "/lists/" ++ jsDisplay (jvGet p "list_id") ++ "/list-entries", .undefined,
      .obj [("entity_id", jvGet p "entity_id")]⟩
    (fun d => "Added to list successfully (Entry ID: " ++ jsDisplay (jvGet d "id") ++ ")")

/-- Version B `affinity_remove_from_list` handler (lines 392-395): a single
DELETE whose response body is ignored. -/
def removeFromListHandler (p : JVal) (remote : Remote) : List Request × Except String Reply :=
  oneCall remote
    ⟨.delete, "/list-entries/" ++ jsDisplay (jvGet p "list_entry_id"), .undefined, .undefined⟩
    (fun _ => "Removed from list successfully")

/-- Version B `affinity_get_all_fields` handler (lines 403-406). -/
def getAllFieldsHandler (_p : JVal) (remote : Remote) : List Request × Except String Reply :=
  oneCall remote ⟨.get, "/fields", .undefined, .undefined⟩ (fun d => jsonStringify "" d)

/-- Version B `affinity_get_field_values` handler (lines 413-416). -/
def getFieldValuesHandler (p : JVal) (remote : Remote) : List Request × Except String Reply :=
  oneCall remote ⟨.get, "/field-values", .obj [("entity_id", jvGet p "entity_id")], .undefined⟩
    (fun d => jsonStringify "" d)

/-- Version B `affinity_update_field_value` handler (lines 423-426): one PUT
of the validated params to `/field-values` and a constant success text.  No
lookup, no branch, no create call. -/
def updateFieldValueHandler (p : JVal) (remote : Remote) : List Request × Except String Reply :=
  oneCall remote ⟨.put, "/field-values", .undefined, p⟩
    (fun _ => "Field value updated successfully")

end VB

namespace VB

/-- Version B registration of `affinity_search_people` (lines 231-239). -/
def searchPeopleTool : ToolReg :=
  ⟨"affinity_search_people", "Search People",
   "Search for people in Affinity CRM by name or email",
   SearchSchema, true, false, searchPeopleHandler⟩

/-- Version B registration of `affinity_get_person` (lines 241-249). -/
def getPersonTool : ToolReg :=
  ⟨"affinity_get_person", "Get Person by ID",
   "Get detailed information about a specific person",
   IDSchema, true, false, getPersonHandler⟩

/-- Version B registration of `affinity_create_person` (lines 251-259). -/
def createPersonTool : ToolReg :=
  ⟨"affinity_create_person", "Create Person",
   "Create a new person in Affinity CRM",
   CreatePersonSchema, false, false, createPersonHandler⟩

/-- Version B registration of `affinity_update_person` (lines 261-270). -/
def updatePersonTool : ToolReg :=
  ⟨"affinity_update_person", "Update Person",
   "Update an existing person's information",
   UpdatePersonSchema, false, false, updatePersonHandler⟩

/-- Version B registration of `affinity_search_organizations` (lines 273-281). -/
def searchOrganizationsTool : ToolReg :=
  ⟨"affinity_search_organizations", "Search Organizations",
   "Search for organizations in Affinity CRM",
   SearchSchema, true, false, searchOrganizationsHandler⟩

/-- Version B registration of `affinity_get_organization` (lines 283-291). -/
def getOrganizationTool : ToolReg :=
  ⟨"affinity_get_organization", "Get Organization by ID",
   "Get detailed information about a specific organization",
   IDSchema, true, false, getOrganizationHandler⟩

/-- Version B registration of `affinity_create_organization` (lines 293-301). -/
def createOrganizationTool : ToolReg :=
  ⟨"affinity_create_organization", "Create Organization",
   "Create a new organization in Affinity CRM",
   CreateOrgSchema, false, false, createOrganizationHandler⟩

/-- Version B registration of `affinity_update_organization` (lines 303-312). -/
def updateOrganizationTool : ToolReg :=
  ⟨"affinity_update_organization", "Update Organization",
   "Update an existing organization's information",
   UpdateOrgSchema, false, false, updateOrganizationHandler⟩

/-- Version B registration of `affinity_search_opportunities` (lines 315-323). -/
def searchOpportunitiesTool : ToolReg :=
  ⟨"affinity_search_opportunities", "Search Opportunities",
   "Search for opportunities in Affinity CRM",
   SearchOpportunitiesSchema, true, false, searchOpportunitiesHandler⟩

/-- Version B registration of `affinity_create_opportunity` (lines 325-333). -/
def createOpportunityTool : ToolReg :=
  ⟨"affinity_create_opportunity", "Create Opportunity",
   "Create a new opportunity in Affinity CRM",
   CreateOpportunitySchema, false, false, createOpportunityHandler⟩

/-- Version B registration of `affinity_create_note` (lines 336-344). -/
def createNoteTool : ToolReg :=
  ⟨"affinity_create_note", "Create Note",
   "Add a note to a person, organization, or opportunity",
   CreateNoteSchema, false, false, createNoteHandler⟩

/-- Version B registration of `affinity_get_notes` (lines 346-354). -/
def getNotesTool : ToolReg :=
  ⟨"affinity_get_notes", "Get Notes",
   "Get all notes for a person, organization, or opportunity",
   GetNotesSchema, true, false, getNotesHandler⟩

/-- Version B registration of `affinity_list_all_lists` (lines 357-365). -/
def listAllListsTool : ToolReg :=
  ⟨"affinity_list_all_lists", "List All Lists",
   "Get all lists in your Affinity CRM",
   EmptySchema, true, false, listAllListsHandler⟩

/-- Version B registration of `affinity_get_list_entries` (lines 367-375). -/
def getListEntriesTool : ToolReg :=
  ⟨"affinity_get_list_entries", "Get List Entries",
   "Get all entries (people/orgs/opportunities) in a specific list",
   GetListEntriesSchema, true, false, getListEntriesHandler⟩

/-- Version B registration of `affinity_add_to_list` (lines 377-385). -/
def addToListTool : ToolReg :=
  ⟨"affinity_add_to_list", "Add to List",
   "Add a person, organization, or opportunity to a list",
   AddToListSchema, false, false, addToListHandler⟩

/-- Version B registration of `affinity_remove_from_list` (lines 387-395). -/
def removeFromListTool : ToolReg :=
  ⟨"affinity_remove_from_list", "Remove from List",
   "Remove an entry from a list",
   RemoveFromListSchema, false, false, removeFromListHandler⟩

/-- Version B registration of `affinity_get_all_fields` (lines 398-406). -/
def getAllFieldsTool : ToolReg :=
  ⟨"affinity_get_all_fields", "Get All Fields",
   "Get all custom fields in Affinity",
   EmptySchema, true, false, getAllFieldsHandler⟩

/-- Version B registration of `affinity_get_field_values` (lines 408-416). -/
def getFieldValuesTool : ToolReg :=
  ⟨"affinity_get_field_values", "Get Field Values",
   "Get all field values for a person, organization, or opportunity",
   GetFieldValuesSchema, true, false, getFieldValuesHandler⟩

/-- Version B registration of `affinity_update_field_value` (lines 418-426). -/
def updateFieldValueTool : ToolReg :=
  ⟨"affinity_update_field_value", "Update Field Value",
   "Update a custom field value for a person, organization, or opportunity",
   UpdateFieldValueSchema, false, false, updateFieldValueHandler⟩

/-- The registry built by version B's `registerTool` calls, in source
order. -/
def registry : List ToolReg :=
  [searchPeopleTool, getPersonTool, createPersonTool, updatePersonTool,
   searchOrganizationsTool, getOrganizationTool, createOrganizationTool,
   updateOrganizationTool, searchOpportunitiesTool, createOpportunityTool,
   createNoteTool, getNotesTool, listAllListsTool, getListEntriesTool,
   addToListTool, removeFromListTool, getAllFieldsTool, getFieldValuesTool,
   updateFieldValueTool]

end VB

/-- The trace of a single-call handler is always exactly its one request,
whatever the remote answers. -/
theorem oneCall_fst (remote : Remote) (req : Request) (k : JVal → String) :
    (oneCall remote req k).1 = [req] := by
  unfold oneCall
  split <;> rfl

/-- On a successful remote response the single-call handler returns the
mapped text reply. -/
theorem oneCall_ok (remote : Remote) (req : Request) (k : JVal → String) (d : JVal)
    (h : remote req = .ok d) :
    oneCall remote req k = ([req], .ok (textReply (k d))) := by
  unfold oneCall
  rw [h]

/-- A failed remote call propagates out of the single-call handler. -/
theorem oneCall_err (remote : Remote) (req : Request) (k : JVal → String) (e : String)
    (h : remote req = .error e) :
    oneCall remote req k = ([req], .error e) := by
  unfold oneCall
  rw [h]

/-- Inversion of one required-field validation step. -/
theorem parseFields_required (n : String) (t : ZType) (fs : List ZField)
    (kvs l : List (String × JVal))
    (h : parseFields (⟨n, t, .required⟩ :: fs) kvs = .ok l) :
    ∃ v rest, jvLookup kvs n = some v ∧ parseFields fs kvs = .ok rest ∧
      l = (n, v) :: rest := by
  simp only [parseFields] at h
  repeat' split at h
  all_goals simp_all

/-- Inversion of one optional-field validation step. -/
theorem parseFields_optional (n : String) (t : ZType) (fs : List ZField)
    (kvs l : List (String × JVal))
    (h : parseFields (⟨n, t, .optional⟩ :: fs) kvs = .ok l) :
    (∃ v rest, jvLookup kvs n = some v ∧ parseFields fs kvs = .ok rest ∧
      l = (n, v) :: rest) ∨
    (jvLookup kvs n = none ∧ parseFields fs kvs = .ok l) := by
  simp only [parseFields] at h
  repeat' split at h
  all_goals simp_all

/-- Inversion of one defaulted-field validation step: an absent field comes
out as its declared default. -/
theorem parseFields_default (n : String) (t : ZType) (d : JVal) (fs : List ZField)
    (kvs l : List (String × JVal))
    (h : parseFields (⟨n, t, .withDefault d⟩ :: fs) kvs = .ok l) :
    (∃ v rest, jvLookup kvs n = some v ∧ parseFields fs kvs = .ok rest ∧
      l = (n, v) :: rest) ∨
    (∃ rest, jvLookup kvs n = none ∧ parseFields fs kvs = .ok rest ∧
      l = (n, d) :: rest) := by
  simp only [parseFields] at h
  repeat' split at h
  all_goals simp_all

/-- Validation of the empty field list yields the empty record. -/
theorem parseFields_nil (kvs l : List (String × JVal))
    (h : parseFields [] kvs = .ok l) : l = [] := by
  simp only [parseFields] at h
  simp_all

/-- A successful schema validation only happens on an object input, and the
validated value is the object assembled by `parseFields`. -/
theorem zodParse_obj (s : Schema) (raw p : JVal)
    (h : zodParse s raw = .ok p) :
    ∃ kvs l, raw = .obj kvs ∧ parseFields s.fields kvs = .ok l ∧ p = .obj l := by
  cases raw with
  | null => simp [zodParse] at h
  | undefined => simp [zodParse] at h
  | bool b => simp [zodParse] at h
  | num n => simp [zodParse] at h
  | str s => simp [zodParse] at h
  | arr xs => simp [zodParse] at h
  | obj kvs =>
    simp only [zodParse] at h
    repeat' split at h
    all_goals simp_all
    cases hr : parseFields s.fields kvs with
    | error e => rw [hr] at h; simp [Except.map] at h
    | ok l => rw [hr] at h; simp [Except.map] at h; exact ⟨l, rfl, h.symm⟩

/-- Claim C1 (counterexample): the `affinity_update_field_value` handler
does not first issue a lookup call — at the concrete input
(field_id 1, entity_id 2, value "x") its entire trace is a single PUT to
`/field-values`, it never reports "updated" or "created" but a constant
text, and the schema does not even accept a `list_entry_id` argument. -/
theorem c1_counterexample :
    VB.updateFieldValueHandler
      (.obj [("field_id", .num 1), ("entity_id", .num 2), ("value", .str "x")])
      (fun _ => .ok .null) =
      ([⟨.put, "/field-values", .undefined,
         .obj [("field_id", .num 1), ("entity_id", .num 2), ("value", .str "x")]⟩],
       .ok (textReply "Field value updated successfully")) ∧
    zodParse VB.UpdateFieldValueSchema
      (.obj [("field_id", .num 1), ("entity_id", .num 2), ("value", .str "x"),
             ("list_entry_id", .num 3)]) =
      .error "Unrecognized key: list_entry_id" :=
  ⟨rfl, rfl⟩

/-- Claim C1 (amended): for every invocation of the field-value operation
with validated params, the handler issues exactly one PUT to `/field-values`
carrying the validated params as the body — no lookup and no create call —
and on a successful remote response reports the constant text
"Field value updated successfully". -/
theorem c1_field_value_single_put (p : JVal) (remote : Remote) (d : JVal)
    (h : remote ⟨.put, "/field-values", .undefined, p⟩ = .ok d) :
    VB.updateFieldValueHandler p remote =
      ([⟨.put, "/field-values", .undefined, p⟩],
       .ok (textReply "Field value updated successfully")) ∧
    ∀ r : Remote, (VB.updateFieldValueHandler p r).1 = [⟨.put, "/field-values", .undefined, p⟩] :=
  ⟨oneCall_ok remote _ _ _ h, fun r => oneCall_fst r _ _⟩

/-- Witness for C1's amended theorem at the concrete input of the
counterexample. -/
theorem c1_witness :
    VB.updateFieldValueHandler
      (.obj [("field_id", .num 1), ("entity_id", .num 2), ("value", .str "x")])
      (fun _ => .ok .null) =
      ([⟨.put, "/field-values", .undefined,
         .obj [("field_id", .num 1), ("entity_id", .num 2), ("value", .str "x")]⟩],
       .ok (textReply "Field value updated successfully")) :=
  (c1_field_value_single_put
    (.obj [("field_id", .num 1), ("entity_id", .num 2), ("value", .str "x")])
    (fun _ => .ok .null) .null rfl).1

/-- Claim C2 (counterexample): against a remote on which every call —
including any would-be lookup — fails with a network error, the
field-value handler issues no create call at all (its whole trace is one
PUT) and surfaces the failure to the caller as an error instead of falling
through to a create. -/
theorem c2_counterexample :
    VB.updateFieldValueHandler
      (.obj [("field_id", .num 4), ("entity_id", .num 5), ("value", .num 6)])
      (fun _ => .error "network error") =
      ([⟨.put, "/field-values", .undefined,
         .obj [("field_id", .num 4), ("entity_id", .num 5), ("value", .num 6)]⟩],
       .error "network error") :=
  rfl

/-- Claim C2 (amended): the field-value handler issues no lookup call;
it performs a single PUT, and when that remote call fails the failure is
surfaced verbatim to the caller — no create call is attempted. -/
theorem c2_put_failure_surfaces (p : JVal) (remote : Remote) (e : String)
    (h : remote ⟨.put, "/field-values", .undefined, p⟩ = .error e) :
    VB.updateFieldValueHandler p remote =
      ([⟨.put, "/field-values", .undefined, p⟩], .error e) :=
  oneCall_err remote _ _ e h

/-- Witness for C2's amended theorem at a concrete failing remote. -/
theorem c2_witness :
    VB.updateFieldValueHandler
      (.obj [("field_id", .num 4), ("entity_id", .num 5), ("value", .num 6)])
      (fun _ => .error "timeout") =
      ([⟨.put, "/field-values", .undefined,
         .obj [("field_id", .num 4), ("entity_id", .num 5), ("value", .num 6)]⟩],
       .error "timeout") :=
  c2_put_failure_surfaces
    (.obj [("field_id", .num 4), ("entity_id", .num 5), ("value", .num 6)])
    (fun _ => .error "timeout") "timeout" rfl

/-- Claim C3: for every registered operation of the server, any raw
argument payload rejected by the operation's declared schema makes dispatch
return an InvalidArguments fault with an empty outbound trace (no remote
call); concretely, for `affinity_create_person`, a missing required
`last_name`, a wrong-typed `first_name`, and an unexpected extra field each
fail validation. -/
theorem c3_invalid_arguments_no_call (name : String) (raw : JVal) (remote : Remote)
    (t : ToolReg) (e : String)
    (hres : resolve VB.registry name = some t)
    (hval : zodParse t.inputSchema raw = .error e) :
    dispatch VB.registry name raw remote = ([], .error (.invalidArguments e)) ∧
    zodParse VB.CreatePersonSchema (.obj [("first_name", .str "Ada")]) =
      .error "Required field missing: last_name" ∧
    zodParse VB.CreatePersonSchema
      (.obj [("first_name", .num 3), ("last_name", .str "L")]) =
      .error "Invalid type for field: first_name" ∧
    zodParse VB.CreatePersonSchema
      (.obj [("first_name", .str "Ada"), ("last_name", .str "L"), ("extra", .num 1)]) =
      .error "Unrecognized key: extra" := by
  refine ⟨?_, rfl, rfl, rfl⟩
  simp only [dispatch, hres, hval]

/-- Witness for C3 at `affinity_create_person` with `last_name` missing. -/
theorem c3_witness :
    dispatch VB.registry "affinity_create_person" (.obj [("first_name", .str "Ada")])
      (fun _ => .ok .null) =
      ([], .error (.invalidArguments "Required field missing: last_name")) :=
  (c3_invalid_arguments_no_call "affinity_create_person"
    (.obj [("first_name", .str "Ada")]) (fun _ => .ok .null)
    VB.createPersonTool "Required field missing: last_name" rfl rfl).1

/-- Claim C4 (counterexample): note creation posts the validated arguments
verbatim — at the concrete input (parent_id 1, parent_type "person",
content "hi") the outbound body is that object itself and carries none of
the keys `person_ids`, `organization_ids`, `opportunity_ids`. -/
theorem c4_counterexample :
    zodParse VB.CreateNoteSchema
      (.obj [("parent_id", .num 1), ("parent_type", .str "person"), ("content", .str "hi")]) =
      .ok (.obj [("parent_id", .num 1), ("parent_type", .str "person"), ("content", .str "hi")]) ∧
    VB.createNoteHandler
      (.obj [("parent_id", .num 1), ("parent_type", .str "person"), ("content", .str "hi")])
      (fun _ => .ok (.obj [("id", .num 5)])) =
      ([⟨.post, "/notes", .undefined,
         .obj [("parent_id", .num 1), ("parent_type", .str "person"), ("content", .str "hi")]⟩],
       .ok (textReply "Note created successfully (ID: 5)")) ∧
    jvHasKey
      (.obj [("parent_id", .num 1), ("parent_type", .str "person"), ("content", .str "hi")])
      "person_ids" = false ∧
    jvHasKey
      (.obj [("parent_id", .num 1), ("parent_type", .str "person"), ("content", .str "hi")])
      "organization_ids" = false ∧
    jvHasKey
      (.obj [("parent_id", .num 1), ("parent_type", .str "person"), ("content", .str "hi")])
      "opportunity_ids" = false :=
  ⟨rfl, rfl, rfl, rfl, rfl⟩

/-- Claim C4 (amended): for every validated note-creation invocation, the
outbound body is the validated arguments verbatim — it carries exactly
`parent_id`, `parent_type` and `content`, and never a `person_ids`,
`organization_ids` or `opportunity_ids` key. -/
theorem c4_note_body_verbatim (raw p : JVal) (remote : Remote)
    (h : zodParse VB.CreateNoteSchema raw = .ok p) :
    (VB.createNoteHandler p remote).1 = [⟨.post, "/notes", .undefined, p⟩] ∧
    jvHasKey p "person_ids" = false ∧
    jvHasKey p "organization_ids" = false ∧
    jvHasKey p "opportunity_ids" = false ∧
    jvHasKey p "parent_id" = true ∧
    jvHasKey p "parent_type" = true ∧
    jvHasKey p "content" = true := by
  obtain ⟨kvs, l, hraw, hpf, hp⟩ := zodParse_obj _ _ _ h
  have hpf9 : parseFields
      [⟨"parent_id", .znum, .required⟩,
       ⟨"parent_type", .zenum ["person", "organization", "opportunity"], .required⟩,
       ⟨"content", .zstr, .required⟩] kvs = .ok l := hpf
  obtain ⟨a, r1, h1, hq1, hl⟩ := parseFields_required _ _ _ _ _ hpf9
  obtain ⟨b, r2, h2, hq2, hr1⟩ := parseFields_required _ _ _ _ _ hq1
  obtain ⟨c, r3, h3, hq3, hr2⟩ := parseFields_required _ _ _ _ _ hq2
  have hr3 := parseFields_nil _ _ hq3
  subst hr3 hr2 hr1 hl hp
  exact ⟨oneCall_fst remote _ _, rfl, rfl, rfl, rfl, rfl, rfl⟩

/-- Witness for C4's amended theorem at the counterexample's input. -/
theorem c4_witness :
    (VB.createNoteHandler
      (.obj [("parent_id", .num 1), ("parent_type", .str "person"), ("content", .str "hi")])
      (fun _ => .ok .null)).1 =
      [⟨.post, "/notes", .undefined,
        .obj [("parent_id", .num 1), ("parent_type", .str "person"), ("content", .str "hi")]⟩] :=
  (c4_note_body_verbatim
    (.obj [("parent_id", .num 1), ("parent_type", .str "person"), ("content", .str "hi")])
    (.obj [("parent_id", .num 1), ("parent_type", .str "person"), ("content", .str "hi")])
    (fun _ => .ok .null) rfl).1

/-- Claim C5: a people-search invocation whose raw arguments omit
`page_size` is validated to the declared default 20, and the validated
params — hence a `page_size` of 20 — form the query of the single outbound
GET `/persons` call. -/
theorem c5_page_size_default (kvs : List (String × JVal)) (p : JVal) (remote : Remote)
    (hps : jvLookup kvs "page_size" = none)
    (h : zodParse VB.SearchSchema (.obj kvs) = .ok p) :
    jvGet p "page_size" = .num 20 ∧
    (VB.searchPeopleHandler p remote).1 = [⟨.get, "/persons", p, .undefined⟩] := by
  obtain ⟨kvs2, l, hraw, hpf, hp⟩ := zodParse_obj _ _ _ h
  injection hraw with hk
  subst hk
  have hpf9 : parseFields
      [⟨"term", .zstr, .optional⟩,
       ⟨"page_size", .znum, .withDefault (.num 20)⟩,
       ⟨"page_token", .zstr, .optional⟩] kvs = .ok l := hpf
  rcases parseFields_optional _ _ _ _ _ hpf9 with ⟨v, rest, hterm, hq1, hl⟩ | ⟨hterm, hq1⟩ <;>
    rcases parseFields_default _ _ _ _ _ _ hq1 with ⟨w, rr, hw, hq2, hr⟩ | ⟨rr, hnone, hq2, hr⟩ <;>
    [skip; subst hr hl hp; skip; subst hr hp] <;>
    first
      | (rw [hps] at hw; cases hw)
      | exact ⟨rfl, oneCall_fst remote _ _⟩

/-- Witness for C5 at the empty raw argument object. -/
theorem c5_witness :
    jvGet (.obj [("page_size", .num 20)]) "page_size" = JVal.num 20 ∧
    (VB.searchPeopleHandler (.obj [("page_size", .num 20)]) (fun _ => .ok .null)).1 =
      [⟨.get, "/persons", .obj [("page_size", .num 20)], .undefined⟩] :=
  c5_page_size_default [] (.obj [("page_size", .num 20)]) (fun _ => .ok .null) rfl rfl

/-- Claim C6: invoking `affinity_create_person` with first_name "Ada" and
last_name "Lovelace", against a remote that answers the outbound POST
`/persons` with id 42 and the echoed names, validates the arguments
unchanged and yields a reply whose single text content is exactly
"Person created: Ada Lovelace (ID: 42)". -/
theorem c6_create_person_reply (remote : Remote)
    (h : remote ⟨.post, "/persons", .undefined,
          .obj [("first_name", .str "Ada"), ("last_name", .str "Lovelace")]⟩ =
        .ok (.obj [("id", .num 42), ("first_name", .str "Ada"),
                   ("last_name", .str "Lovelace")])) :
    zodParse VB.CreatePersonSchema
      (.obj [("first_name", .str "Ada"), ("last_name", .str "Lovelace")]) =
      .ok (.obj [("first_name", .str "Ada"), ("last_name", .str "Lovelace")]) ∧
    VB.createPersonHandler
      (.obj [("first_name", .str "Ada"), ("last_name", .str "Lovelace")]) remote =
      ([⟨.post, "/persons", .undefined,
         .obj [("first_name", .str "Ada"), ("last_name", .str "Lovelace")]⟩],
       .ok (textReply "Person created: Ada Lovelace (ID: 42)")) :=
  ⟨rfl, oneCall_ok remote _ _ _ h⟩

/-- Witness for C6 with the mock remote of the scenario. -/
theorem c6_witness :
    VB.createPersonHandler
      (.obj [("first_name", .str "Ada"), ("last_name", .str "Lovelace")])
      (fun _ => .ok (.obj [("id", .num 42), ("first_name", .str "Ada"),
                           ("last_name", .str "Lovelace")])) =
      ([⟨.post, "/persons", .undefined,
         .obj [("first_name", .str "Ada"), ("last_name", .str "Lovelace")]⟩],
       .ok (textReply "Person created: Ada Lovelace (ID: 42)")) :=
  (c6_create_person_reply
    (fun _ => .ok (.obj [("id", .num 42), ("first_name", .str "Ada"),
                         ("last_name", .str "Lovelace")])) rfl).2

/-- Claim C7: invoking `affinity_remove_from_list` with list_entry_id 7,
against a remote that accepts the delete, issues exactly one outbound
DELETE to `/list-entries/7` and yields the reply text
"Removed from list successfully". -/
theorem c7_remove_from_list (remote : Remote) (d : JVal)
    (h : remote ⟨.delete, "/list-entries/7", .undefined, .undefined⟩ = .ok d) :
    zodParse VB.RemoveFromListSchema (.obj [("list_entry_id", .num 7)]) =
      .ok (.obj [("list_entry_id", .num 7)]) ∧
    VB.removeFromListHandler (.obj [("list_entry_id", .num 7)]) remote =
      ([⟨.delete, "/list-entries/7", .undefined, .undefined⟩],
       .ok (textReply "Removed from list successfully")) :=
  ⟨rfl, oneCall_ok remote _ _ _ h⟩

/-- Witness for C7 with a mock remote that accepts the delete. -/
theorem c7_witness :
    VB.removeFromListHandler (.obj [("list_entry_id", .num 7)]) (fun _ => .ok .null) =
      ([⟨.delete, "/list-entries/7", .undefined, .undefined⟩],
       .ok (textReply "Removed from list successfully")) :=
  (c7_remove_from_list (fun _ => .ok .null) .null rfl).2

/-- Claim C8: when the required `AFFINITY_API_KEY` credential is absent the
process exits with code 1 — a non-zero exit — before any listener starts,
for every setting of the optional port variable; in particular the startup
outcome is never a listening state, so no operation is served. -/
theorem c8_missing_credential_exits (portEnv : Option String) :
    startup none portEnv = .exitWith 1 ∧ (1 : Nat) ≠ 0 ∧
    ∀ q : String, startup none portEnv ≠ .listening q :=
  ⟨rfl, one_ne_zero, fun _ hq => StartupOutcome.noConfusion hq⟩

/-- Claim C9 (counterexample): version B of the server registers 19
operations, not 20. -/
theorem c9_counterexample :
    (VB.registry.map (fun t => t.name)).length = 19 ∧ (19 : Nat) ≠ 20 :=
  ⟨rfl, by decide⟩

/-- Claim C9 (amended): the server registers exactly 19 operations — the
search/get/create/update tools for people and organizations, search/create
for opportunities, create/get for notes, the four list-membership tools and
the three custom-field tools — and every registered name is unique. -/
theorem c9_catalog :
    VB.registry.map (fun t => t.name) =
      ["affinity_search_people", "affinity_get_person", "affinity_create_person",
       "affinity_update_person", "affinity_search_organizations",
       "affinity_get_organization", "affinity_create_organization",
       "affinity_update_organization", "affinity_search_opportunities",
       "affinity_create_opportunity", "affinity_create_note", "affinity_get_notes",
       "affinity_list_all_lists", "affinity_get_list_entries", "affinity_add_to_list",
       "affinity_remove_from_list", "affinity_get_all_fields",
       "affinity_get_field_values", "affinity_update_field_value"] ∧
    (VB.registry.map (fun t => t.name)).Nodup :=
  ⟨rfl, by decide⟩

/-- Claim C10: for each of the five operation names registered by both
versions of the source file, the two registrations are equal outright —
same name, title, description, input schema, side-effect flags and a
handler that is definitionally (hence extensionally) the same function —
and every version A operation name also occurs in version B's registry, so
version B refines version A by only adding operations. -/
theorem c10_version_b_refines_version_a :
    VA.searchPeopleTool = VB.searchPeopleTool ∧
    VA.createPersonTool = VB.createPersonTool ∧
    VA.searchOrganizationsTool = VB.searchOrganizationsTool ∧
    VA.createOrganizationTool = VB.createOrganizationTool ∧
    VA.createNoteTool = VB.createNoteTool ∧
    (VA.registry.map (fun t => t.name)).all
      (fun n => (VB.registry.map (fun t => t.name)).contains n) = true :=
  ⟨rfl, rfl, rfl, rfl, rfl, rfl⟩
